import Mathlib

/-!
Verification development for the geosquare-datascience repository.

The repository is a collection of Python data-acquisition and
data-preparation scripts. This file gives a shallow embedding of the
parts of those scripts that the testable properties talk about:

* `create_grid_geometry` and the CSV/GeoJSON/GeoParquet export in
  `phase4_grid_integration/export_grid_formats.py`;
* the oil-palm class merge in
  `phase2_satellite/scripts/merge_oilpalm_lulc.py`;
* the raster metadata annotators in
  `phase2_satellite/scripts/lulc_metadata.py` and
  `phase2_satellite/scripts/assign_raster_metadata.py`;
* the downloaders in `phase1_data_hunt/bnpb/download_risk_bnpb.py`,
  `phase1_data_hunt/bnpb/risk_bnpb_scrap.py` and
  `phase1_data_hunt/osm/extract_osm_data.py`;
* the boundary filtering and column-name heuristic in
  `phase1_data_hunt/boundaries/extract_boundaries_from_gdb.py`;
* the regional clipping in `phase1_data_hunt/osm/extract_osm_data.py`.

Machine floats of the Python code are modelled as rationals, numpy
arrays as lists, file contents as lists of naturals, and the effect of
each script as a pure function on an explicit state.
-/

namespace GeoSquare

/-! ## Character-list string utilities

The Python scripts use `in`, `str.contains`, `str.upper`, `endswith`
and `replace` on short ASCII strings. We model them on `List Char` so
that every predicate is kernel-computable. -/

/-- `startsWithL pat l` is true when `pat` is an initial segment of `l`. -/
def startsWithL : List Char → List Char → Bool
  | [], _ => true
  | _ :: _, [] => false
  | a :: as, b :: bs => a = b && startsWithL as bs

/-- `containsL pat l` is true when `pat` occurs contiguously inside `l`
(the model of the Python `in` operator on strings). -/
def containsL (pat : List Char) : List Char → Bool
  | [] => pat.isEmpty
  | c :: rest => startsWithL pat (c :: rest) || containsL pat rest

/-- `isSuffixL pat l` is true when `l` ends with `pat`. -/
def isSuffixL (pat l : List Char) : Bool :=
  startsWithL pat.reverse l.reverse

/-- Model of Python `str.upper` on ASCII strings. -/
def upperStr (s : String) : String :=
  ⟨s.data.map Char.toUpper⟩

/-- `containsSub hay pat` is the model of Python `pat in hay`. -/
def containsSub (hay pat : String) : Bool :=
  containsL pat.data hay.data

/-- Worker for `removeAllL`; the fuel argument dominates the length of
the scanned list, every step consumes at least one character, so fuel
equal to the initial length is never exhausted. -/
def removeAllLFuel (pat : List Char) : ℕ → List Char → List Char
  | _, [] => []
  | 0, l => l
  | fuel + 1, c :: rest =>
    if pat ≠ [] ∧ startsWithL pat (c :: rest) then
      removeAllLFuel pat fuel (List.drop (pat.length - 1) rest)
    else
      c :: removeAllLFuel pat fuel rest

/-- Model of Python `str.replace(pat, "")` (removal of every occurrence),
as used for `filename.replace(".tif", "")`. -/
def removeAllL (pat l : List Char) : List Char :=
  removeAllLFuel pat l.length l

/-- Model of Python `str.replace(".tif", "")` on a filename. -/
def removeTif (s : String) : String :=
  ⟨removeAllL ".tif".data s.data⟩

/-! ## Grid export (`phase4_grid_integration/export_grid_formats.py`)

The integrated grid table is read from CSV: each row carries the cell
centroid `(lon, lat)` and the remaining non-geometry attribute columns,
which we keep abstract as a list of field values. -/

/-- One row of the integrated grid table (`grid_id`, population columns,
LULC columns, and so on are collected in `attrs`). -/
structure GridRow where
  lon : ℚ
  lat : ℚ
  attrs : List String
  deriving DecidableEq, Repr

/-- `GRID_SIZE = 50` meters, from `export_grid_formats.py`. -/
def GRID_SIZE : ℚ := 50

/-- `half_size_deg = 25 / 111000`, from `create_grid_geometry`. -/
def half_size_deg : ℚ := 25 / 111000

/-- Coordinate ring of `shapely.geometry.box(minx, miny, maxx, maxy)`:
the counter-clockwise closed ring starting at the lower-right corner. -/
def boxCoords (minx miny maxx maxy : ℚ) : List (ℚ × ℚ) :=
  [(maxx, miny), (maxx, maxy), (minx, maxy), (minx, miny), (maxx, miny)]

/-- The square cell polygon synthesized for one row by
`create_grid_geometry`: `box(lon - h, lat - h, lon + h, lat + h)`. -/
def cellPoly (lon lat : ℚ) : List (ℚ × ℚ) :=
  boxCoords (lon - half_size_deg) (lat - half_size_deg)
    (lon + half_size_deg) (lat + half_size_deg)

/-- `create_grid_geometry(df)`: one square polygon per input row. -/
def create_grid_geometry (df : List GridRow) : List (List (ℚ × ℚ)) :=
  df.map (fun r => cellPoly r.lon r.lat)

/-- The consecutive-vertex edges of a polygon ring. -/
def ringEdges (g : List (ℚ × ℚ)) : List ((ℚ × ℚ) × (ℚ × ℚ)) :=
  g.zip g.tail

/-- A ring is closed when its first and last vertices agree. -/
def ringClosed (g : List (ℚ × ℚ)) : Prop :=
  g.head? = g.getLast?

/-- Every edge of the ring is horizontal or vertical. -/
def ringAxisAligned (g : List (ℚ × ℚ)) : Prop :=
  ∀ e ∈ ringEdges g, e.1.1 = e.2.1 ∨ e.1.2 = e.2.2

/-- Squared length of one edge. -/
def edgeLenSq (e : (ℚ × ℚ) × (ℚ × ℚ)) : ℚ :=
  (e.2.1 - e.1.1) ^ 2 + (e.2.2 - e.1.2) ^ 2

/-- Centroid of the four corner vertices of a closed quadrilateral ring
(the ring without its repeated final vertex). -/
def cornerCentroid (g : List (ℚ × ℚ)) : ℚ × ℚ :=
  (((g.dropLast.map Prod.fst).sum) / 4, ((g.dropLast.map Prod.snd).sum) / 4)

/-- The CSV export writes the table as loaded, without geometry
(`tangsel.to_csv(...)`). -/
def exportCsvRows (df : List GridRow) : List GridRow := df

/-- The GeoJSON export writes the GeoDataFrame built from the same table
with the synthesized geometries attached
(`gpd.GeoDataFrame(tangsel, geometry=tangsel_geoms)` then `to_file`). -/
def exportGeoJsonRows (df : List GridRow) : List (GridRow × List (ℚ × ℚ)) :=
  df.zip (create_grid_geometry df)

/-- The GeoParquet export writes the same GeoDataFrame
(`tangsel_gdf.to_parquet(...)`). -/
def exportParquetRows (df : List GridRow) : List (GridRow × List (ℚ × ℚ)) :=
  df.zip (create_grid_geometry df)

/-! ## Oil-palm merge (`phase2_satellite/scripts/merge_oilpalm_lulc.py`)

`merge_oilpalm_to_lulc` reads the LULC band and the reprojected
oil-palm band (two arrays of identical shape, modelled as lists scanned
in the same pixel order), forms the mask `(oilpalm == 1) | (oilpalm == 2)`
and assigns class 12 on the mask: `lulc_data[oilpalm_mask] = 12`. -/

/-- The per-pixel effect of the merge: an oil-palm value of 1 or 2
forces class 12, any other oil-palm value keeps the LULC value. -/
def mergePixel (lulcVal oilpalmVal : ℕ) : ℕ :=
  if oilpalmVal = 1 ∨ oilpalmVal = 2 then 12 else lulcVal

/-- The masked assignment of `merge_oilpalm_to_lulc` over the whole
band, pixel by pixel. -/
def merge_oilpalm_to_lulc (lulcData oilpalmData : List ℕ) : List ℕ :=
  List.zipWith mergePixel lulcData oilpalmData

/-! ## Raster metadata annotators

A GeoTIFF, as far as these scripts touch it, is its band-1 pixel array,
its dataset tags, its band-1 tags, its band-1 description and its
band-1 colormap. Pixel values are the stored numbers (all three rasters
involved carry small non-negative integer codes; the LULC annotator
additionally casts with `astype("uint8")`, modelled as reduction
modulo 256). -/

/-- State of a single-band GeoTIFF as manipulated by the scripts. -/
structure Raster where
  pixels : List ℕ
  tags : List (String × String)
  bandTags : List (String × String)
  bandDesc : String
  colormap : List (ℕ × (ℕ × ℕ × ℕ))
  deriving DecidableEq, Repr

/-- Model of `rasterio` `update_tags`: entries for the given keys are
replaced, other entries are kept. -/
def updateTags (old new : List (String × String)) : List (String × String) :=
  old.filter (fun p => !(new.any (fun q => q.1 = p.1))) ++ new

/-- `LULC_CLASSES` of `lulc_metadata.py` (without oil palm). -/
def LULC_CLASSES : List (ℕ × String) :=
  [(1, "Water"), (2, "Trees"), (4, "Flooded Vegetation"), (5, "Crops"),
   (7, "Built Area"), (8, "Bare Ground"), (11, "Rangeland")]

/-- `LULC_COLORS` of `lulc_metadata.py`. -/
def LULC_COLORS : List (ℕ × (ℕ × ℕ × ℕ)) :=
  [(1, (65, 155, 223)), (2, (57, 125, 73)), (4, (122, 135, 198)),
   (5, (228, 150, 53)), (7, (196, 40, 27)), (8, (165, 155, 143)),
   (11, (227, 226, 195))]

/-- The `class_names` tag value built by
`",".join(f"{k}:{v}" for ...)` over `LULC_CLASSES`. -/
def lulcClassNamesTag : String :=
  String.intercalate "," (LULC_CLASSES.map (fun p => toString p.1 ++ ":" ++ p.2))

/-- `assign_lulc_metadata` (`lulc_metadata.py`, lines 43 to 93): reads
band 1, casts it with `astype("uint8")` (an integer value `v` becomes
`v % 256`), and writes a fresh file with that data, fresh dataset tags,
band tags, band description and colormap. -/
def assign_lulc_metadata (src : Raster) : Raster :=
  { pixels := src.pixels.map (fun v => v % 256),
    tags := [("AREA_OR_POINT", "Area"),
             ("TIFFTAG_SOFTWARE", "Google Earth Engine + rasterio")],
    bandTags :=
      [("class_names", lulcClassNamesTag),
       ("description", "Land Use Land Cover Classification 2025"),
       ("method", "Random Forest - Sentinel-2"),
       ("bands_used", "B2,B3,B4,B5,B6,B7,B8,B8A,B11,B12,NDVI,NDWI,NDBI,SAVI,EVI,BSI"),
       ("date_range", "2025-01-01 to 2025-12-31"),
       ("source", "Sentinel-2 SR Harmonized"),
       ("resolution", "10m")],
    bandDesc := "LULC Classification",
    colormap := LULC_COLORS }

/-- `NIGHTLIGHTS_METADATA` of `assign_raster_metadata.py`. -/
def NIGHTLIGHTS_METADATA : List (String × String) :=
  [("description", "VIIRS Day/Night Band - Nighttime Radiance"),
   ("source", "NASA VIIRS DNB"),
   ("resolution", "500m (resampled to 10m)"),
   ("unit", "nanoWatts/cm2/sr"),
   ("date_range_2020", "2020-01-01 to 2020-12-31"),
   ("date_range_2025", "2025-01-01 to 2025-12-31"),
   ("processing", "Cloud-free median composite"),
   ("interpretation", "0=rural/dark, 10=residential, 30=urban, 60+=dense urban/industrial")]

/-- Lookup in a metadata dictionary, defaulting to the empty string. -/
def metaGet (dict : List (String × String)) (key : String) : String :=
  ((dict.find? (fun p => p.1 = key)).map Prod.snd).getD ""

/-- `assign_nightlights_metadata` (`assign_raster_metadata.py`, lines 32
to 58): opens the raster in `r+` mode, updates its dataset tags and the
band-1 description, reads the band only to print statistics. -/
def assign_nightlights_metadata (src : Raster) (year : ℕ) (region : String) :
    Raster :=
  { src with
    tags := updateTags src.tags
      [("description", metaGet NIGHTLIGHTS_METADATA "description" ++ " - " ++ toString year),
       ("source", metaGet NIGHTLIGHTS_METADATA "source"),
       ("year", toString year),
       ("region", region),
       ("resolution", metaGet NIGHTLIGHTS_METADATA "resolution"),
       ("unit", metaGet NIGHTLIGHTS_METADATA "unit"),
       ("date_range", metaGet NIGHTLIGHTS_METADATA ("date_range_" ++ toString year)),
       ("processing", metaGet NIGHTLIGHTS_METADATA "processing"),
       ("interpretation", metaGet NIGHTLIGHTS_METADATA "interpretation")],
    bandDesc := "Night Lights " ++ toString year }

/-- `HAZARD_METADATA` of `assign_raster_metadata.py`: layer name to
(`name`, `name_id`, `description`). -/
def HAZARD_METADATA : List (String × (String × String × String)) :=
  [("inarisk_hazard_floods",
    ("Flood Risk", "Risiko Banjir",
     "Multi-hazard flood risk index combining historical flood events, topography, and precipitation")),
   ("inarisk_hazard_drought",
    ("Drought Risk", "Risiko Kekeringan",
     "Drought risk index based on precipitation patterns, water availability, and historical drought events")),
   ("inarisk_hazard_landslide",
    ("Landslide Risk", "Risiko Tanah Longsor",
     "Landslide susceptibility based on slope, soil type, precipitation, and historical landslide events")),
   ("inarisk_hazard_earthquake",
    ("Earthquake Risk", "Risiko Gempa Bumi",
     "Earthquake hazard index based on seismic activity, fault lines, and soil amplification")),
   ("inarisk_hazard_extreme_weather",
    ("Extreme Weather Risk", "Risiko Cuaca Ekstrem",
     "Extreme weather risk including storms, high winds, and extreme precipitation events")),
   ("inarisk_hazard_land_forest_fire",
    ("Forest Fire Risk", "Risiko Kebakaran Hutan/Lahan",
     "Fire risk index based on vegetation type, climate, and historical fire events"))]

/-- `RISK_CLASSIFICATION` of `assign_raster_metadata.py`. -/
def RISK_CLASSIFICATION : List (String × String) :=
  [("low", "0.0 - 0.3 (Low/Rendah)"),
   ("moderate", "0.3 - 0.6 (Moderate/Sedang)"),
   ("high", "0.6 - 1.0 (High/Tinggi)")]

/-- `assign_hazard_metadata` (`assign_raster_metadata.py`, lines 105 to
156): derives the layer name from the file name (`replace(".tif", "")`),
returns unchanged on an unknown layer, otherwise opens in `r+` mode and
updates dataset tags and the band-1 description. -/
def assign_hazard_metadata (src : Raster) (filename : String) : Raster :=
  let layerName := removeTif filename
  match HAZARD_METADATA.find? (fun p => p.1 = layerName) with
  | none => src
  | some entry =>
    { src with
      tags := updateTags src.tags
        [("name", entry.2.1),
         ("name_id", entry.2.2.1),
         ("description", entry.2.2.2),
         ("source", "BNPB InaRISK Portal"),
         ("year", "2023"),
         ("scale", "0-1 normalized (0=low risk, 1=high risk)"),
         ("classification_low", metaGet RISK_CLASSIFICATION "low"),
         ("classification_moderate", metaGet RISK_CLASSIFICATION "moderate"),
         ("classification_high", metaGet RISK_CLASSIFICATION "high"),
         ("interpretation", "Higher value = higher risk. Use for investment risk assessment.")],
      bandDesc := entry.2.1 }

/-! ## Downloaders (`phase1_data_hunt`)

Each download call is modelled as a pure state transition driven by an
oracle describing what the network did: the HTTP request failed before
any body byte was written, the body stream failed after some bytes were
written to the target (the bytes written so far are recorded), or the
whole body arrived together with its `Content-Type` header. -/

/-- Outcome of one HTTP fetch attempt. -/
inductive FetchOutcome where
  | httpError : FetchOutcome
  | streamError (written : List ℕ) : FetchOutcome
  | ok (body : List ℕ) (contentType : String) : FetchOutcome
  deriving DecidableEq, Repr

/-- On-disk state seen by `download_bnpb_data`
(`download_risk_bnpb.py`): the TIF files inside `inarisk/` and the
contents of `bnpb_risk_data.zip`, when present. -/
structure BnpbState where
  tifFiles : List String
  zipFile : Option (List ℕ)
  deriving DecidableEq, Repr

/-- `download_bnpb_data` (`download_risk_bnpb.py`, lines 44 to 117).
It returns early when `inarisk/` already holds TIF files; otherwise it
streams the ZIP to disk, extracts it (the extraction is abstracted by
`extractTifs`) and unlinks the ZIP; the `except` clause unlinks the ZIP
when it exists. -/
def download_bnpb_data (extractTifs : List ℕ → List String)
    (s : BnpbState) (outcome : FetchOutcome) : BnpbState × Bool :=
  if s.tifFiles ≠ [] then (s, true)
  else
    match outcome with
    | .httpError => ({ s with zipFile := none }, false)
    | .streamError _ => ({ s with zipFile := none }, false)
    | .ok body _ => ({ tifFiles := extractTifs body, zipFile := none }, true)

/-- The content-type test of `download_layer`
(`"image" in ct or "tiff" in ct or "octet" in ct`). -/
def isImageContentType (ct : String) : Bool :=
  containsSub ct "image" || containsSub ct "tiff" || containsSub ct "octet"

/-- `download_layer` (`risk_bnpb_scrap.py`, lines 40 to 103), acting on
the target file for the requested layer. It returns early when the file
exists; on a good response with an image-like content type it streams
the body into the file; on a non-image response it returns `false`
without writing; on a `RequestException` it prints the error and
returns `false` — the `except` clause does not unlink the file, so
bytes written before a mid-stream failure stay on disk. -/
def download_layer (target : Option (List ℕ)) (outcome : FetchOutcome) :
    Option (List ℕ) × Bool :=
  match target with
  | some content => (some content, true)
  | none =>
    match outcome with
    | .httpError => (none, false)
    | .streamError written => (some written, false)
    | .ok body ct =>
      if isImageContentType ct then (some body, true) else (none, false)

/-- `download_indonesia_pbf` (`extract_osm_data.py`, lines 65 to 124),
acting on the Indonesia PBF file. It returns early when a matching PBF
already exists; otherwise it streams the body to the target; the
`except` clause unlinks the target when it exists. -/
def download_indonesia_pbf (existing : Option (List ℕ))
    (outcome : FetchOutcome) : Option (List ℕ) × Bool :=
  match existing with
  | some content => (some content, true)
  | none =>
    match outcome with
    | .httpError => (none, false)
    | .streamError _ => (none, false)
    | .ok body _ => (some body, true)

/-! ## Boundary extraction (`extract_boundaries_from_gdb.py`)

Two pieces are modelled: the name-column heuristic (lines 76 to 90) and
the keyword filter with its empty-result path (lines 93 to 102). -/

/-- The keyword test of the heuristic: the upper-cased column name
contains one of `WADM`, `NAMA`, `KAB`, `KOT` and does not contain `KD`. -/
def nameColPred (col : String) : Bool :=
  (["WADM", "NAMA", "KAB", "KOT"].any
    (fun keyword => containsSub (upperStr col) keyword)) &&
  !containsSub (upperStr col) "KD"

/-- The name-column heuristic of `extract_boundaries`: take `WADMKK`
when present, else the first column passing `nameColPred`, else fall
back to the first text column (`textCols` lists the columns of object
dtype; Python indexes `[0]`, which we render as `head?`). -/
def pickNameCol (cols textCols : List String) : Option String :=
  if cols.contains "WADMKK" then some "WADMKK"
  else
    match cols.filter nameColPred with
    | [] => textCols.head?
    | c :: _ => some c

/-- Modelled from the claim wording, for comparison with `pickNameCol`:
prefer a column literally named `WADMKK`, else the first column whose
upper-cased name contains one of `WADM`, `NAMA`, `KAB` and is not a
code column (name containing `KD`). -/
def pickNameColClaimed (cols textCols : List String) : Option String :=
  if cols.contains "WADMKK" then some "WADMKK"
  else
    match cols.filter (fun col =>
      (["WADM", "NAMA", "KAB"].any
        (fun keyword => containsSub (upperStr col) keyword)) &&
      !containsSub (upperStr col) "KD") with
    | [] => textCols.head?
    | c :: _ => some c

/-- The amended heuristic, stated through `List.find?`: `WADMKK` when
present, else the first column whose upper-cased name contains one of
`WADM`, `NAMA`, `KAB`, `KOT` and does not contain `KD`, else the first
text column. -/
def pickNameColAmended (cols textCols : List String) : Option String :=
  if cols.contains "WADMKK" then some "WADMKK"
  else
    match cols.find? nameColPred with
    | some c => some c
    | none => textCols.head?

/-- One regex branch of `"|".join(region_keywords)` as used by the
script: a literal pattern, optionally anchored at the end by `$`
(`re.search` semantics on the already upper-cased value). -/
def patMatch (pat hay : List Char) : Bool :=
  if pat.getLast? = some '$' then isSuffixL pat.dropLast hay
  else containsL pat hay

/-- The row mask of
`gdf[name_col].str.upper().str.contains("|".join(keywords), na=False, regex=True)`:
a missing value never matches, otherwise some keyword branch must match
the upper-cased value. -/
def matchValue (keywords : List String) (v : Option String) : Bool :=
  match v with
  | none => false
  | some s => keywords.any (fun k => patMatch k.data (upperStr s).data)

/-- A row of the boundary layer: the value of the selected name column
and the remaining fields (geometry included, kept abstract). -/
structure BRow where
  nameVal : Option String
  rest : List String
  deriving DecidableEq, Repr

/-- The filtering step of `extract_boundaries` (lines 93 to 102):
`filtered = gdf[mask]`; when no row survives, a warning is printed and
the function returns `None` (no features, no output file); otherwise
the filtered rows continue down the pipeline. The boolean records
whether the warning path was taken. -/
def extractBoundariesFilter (keywords : List String) (rows : List BRow) :
    Option (List BRow) × Bool :=
  let filtered := rows.filter (fun r => matchValue keywords r.nameVal)
  if filtered.length = 0 then (none, true) else (some filtered, false)

/-! ## Regional vector extraction

`extract_pois` (`extract_osm_data.py`, lines 190 to 206) reprojects the
raw layer to the CRS of the region layer when they differ, then keeps
exactly the features lying `within` some region geometry
(`gpd.sjoin(..., how="inner", predicate="within")`). The geometric
`within` test and the reprojection are library operations, passed in as
parameters. `extract_boundaries` (lines 132 to 139) reprojects its
result to `EPSG:4326` when its CRS differs. -/

/-- A vector layer: a CRS label and features carrying attributes and a
coordinate-list geometry. -/
structure VecLayer where
  crs : String
  feats : List (String × List (ℚ × ℚ))
  deriving DecidableEq, Repr

/-- `extract_pois`: align the CRS of the raw POI layer with the region
layer, then keep the features within some region geometry. -/
def extract_pois (within : List (ℚ × ℚ) → List (ℚ × ℚ) → Bool)
    (reproj : List (ℚ × ℚ) → List (ℚ × ℚ))
    (pois region : VecLayer) : VecLayer :=
  let aligned :=
    if pois.crs = region.crs then pois.feats
    else pois.feats.map (fun f => (f.1, reproj f.2))
  { crs := region.crs,
    feats := aligned.filter (fun f => region.feats.any (fun g => within f.2 g.2)) }

/-- The CRS normalization of `extract_boundaries`: convert to
`EPSG:4326` when the layer is in another CRS. -/
def ensureWgs84 (reproj : List (ℚ × ℚ) → List (ℚ × ℚ)) (l : VecLayer) :
    VecLayer :=
  if l.crs = "EPSG:4326" then l
  else { crs := "EPSG:4326", feats := l.feats.map (fun f => (f.1, reproj f.2)) }

/-! ## Theorems -/

/-- C1: for every input row with coordinates `(lon, lat)`, the grid
geometry synthesizer produces a closed, valid (four pairwise distinct
corners), axis-aligned square polygon centered exactly at `(lon, lat)`,
whose half-side length in degrees equals `(cell_size / 2) / 111000`,
that is `25 / 111000` for the 50 m cell size. -/
theorem grid_geometry_square_centered (df : List GridRow) (r : GridRow)
    (hmem : r ∈ df) :
    cellPoly r.lon r.lat ∈ create_grid_geometry df ∧
    ringClosed (cellPoly r.lon r.lat) ∧
    ringAxisAligned (cellPoly r.lon r.lat) ∧
    (∀ e ∈ ringEdges (cellPoly r.lon r.lat),
      edgeLenSq e = (2 * half_size_deg) ^ 2) ∧
    (cellPoly r.lon r.lat).dropLast.Nodup ∧
    cornerCentroid (cellPoly r.lon r.lat) = (r.lon, r.lat) ∧
    half_size_deg = (GRID_SIZE / 2) / 111000 := by
  have hh : (0 : ℚ) < half_size_deg := by norm_num [half_size_deg]
  refine ⟨List.mem_map_of_mem _ hmem, rfl, ?_, ?_, ?_, ?_, ?_⟩
  · intro e he
    simp only [ringEdges, cellPoly, boxCoords, List.zip, List.tail,
      List.zipWith, List.mem_cons, List.not_mem_nil, or_false] at he
    rcases he with rfl | rfl | rfl | rfl <;> simp
  · intro e he
    simp only [ringEdges, cellPoly, boxCoords, List.zip, List.tail,
      List.zipWith, List.mem_cons, List.not_mem_nil, or_false] at he
    rcases he with rfl | rfl | rfl | rfl <;> simp [edgeLenSq] <;> ring
  · have h1 : r.lon + half_size_deg ≠ r.lon - half_size_deg := by
      intro h; nlinarith
    have h2 : r.lat + half_size_deg ≠ r.lat - half_size_deg := by
      intro h; nlinarith
    simp [cellPoly, boxCoords, List.dropLast, List.nodup_cons, Prod.ext_iff,
      h1, h2, h1.symm, h2.symm]
  · simp only [cornerCentroid, cellPoly, boxCoords, List.dropLast,
      List.map, List.sum_cons, List.sum_nil, Prod.mk.injEq]
    constructor <;> ring
  · norm_num [half_size_deg, GRID_SIZE]

/-- C1 witness at a concrete row. -/
theorem grid_geometry_square_centered_witness :
    cellPoly (106 : ℚ) (-6 : ℚ) ∈ create_grid_geometry [⟨106, -6, ["g1"]⟩] ∧
    ringClosed (cellPoly (106 : ℚ) (-6 : ℚ)) ∧
    ringAxisAligned (cellPoly (106 : ℚ) (-6 : ℚ)) ∧
    (∀ e ∈ ringEdges (cellPoly (106 : ℚ) (-6 : ℚ)),
      edgeLenSq e = (2 * half_size_deg) ^ 2) ∧
    (cellPoly (106 : ℚ) (-6 : ℚ)).dropLast.Nodup ∧
    cornerCentroid (cellPoly (106 : ℚ) (-6 : ℚ)) = (106, -6) ∧
    half_size_deg = (GRID_SIZE / 2) / 111000 :=
  grid_geometry_square_centered [⟨106, -6, ["g1"]⟩] ⟨106, -6, ["g1"]⟩
    (List.mem_singleton.mpr rfl)

/-- C2: in the oil-palm merge, a pixel becomes class 12 exactly when
the reprojected oil-palm raster holds 1 or 2 at that position, and
keeps its original LULC value for every other oil-palm value. -/
theorem merge_oilpalm_pixelwise (lulcData oilpalmData : List ℕ) (i : ℕ)
    (h1 : i < lulcData.length) (h2 : i < oilpalmData.length) :
    (merge_oilpalm_to_lulc lulcData oilpalmData).getD i 0 =
      if oilpalmData.getD i 0 = 1 ∨ oilpalmData.getD i 0 = 2 then 12
      else lulcData.getD i 0 := by
  induction lulcData generalizing oilpalmData i with
  | nil => simp at h1
  | cons a t ih =>
    cases oilpalmData with
    | nil => simp at h2
    | cons b s =>
      cases i with
      | zero => simp [merge_oilpalm_to_lulc, mergePixel]
      | succ n =>
        simp only [merge_oilpalm_to_lulc, List.zipWith, List.getD_cons_succ]
        exact ih s n (by simpa using h1) (by simpa using h2)

/-- C2 witness at concrete bands. -/
theorem merge_oilpalm_pixelwise_witness :
    (1 < ([5, 7, 12] : List ℕ).length) ∧ (1 < ([3, 2, 0] : List ℕ).length) ∧
    (merge_oilpalm_to_lulc [5, 7, 12] [3, 2, 0]).getD 1 0 =
      if ([3, 2, 0] : List ℕ).getD 1 0 = 1 ∨ ([3, 2, 0] : List ℕ).getD 1 0 = 2
      then 12 else ([5, 7, 12] : List ℕ).getD 1 0 :=
  ⟨by decide, by decide,
   merge_oilpalm_pixelwise [5, 7, 12] [3, 2, 0] 1 (by decide) (by decide)⟩

/-- C10: the oil-palm merge is idempotent: running the masked class
substitution twice against the same oil-palm band equals running it
once. -/
theorem merge_oilpalm_idempotent (lulcData oilpalmData : List ℕ) :
    merge_oilpalm_to_lulc (merge_oilpalm_to_lulc lulcData oilpalmData)
      oilpalmData = merge_oilpalm_to_lulc lulcData oilpalmData := by
  induction lulcData generalizing oilpalmData with
  | nil => simp [merge_oilpalm_to_lulc]
  | cons a t ih =>
    cases oilpalmData with
    | nil => simp [merge_oilpalm_to_lulc]
    | cons b s =>
      simp only [merge_oilpalm_to_lulc, List.zipWith, List.cons.injEq]
      refine ⟨?_, ih s⟩
      unfold mergePixel
      split <;> simp [*]

/-- C4: the CSV, GeoJSON and GeoParquet exports of the same input table
carry the same non-geometry attribute values, row for row, in the same
row order. -/
theorem exports_same_attributes (df : List GridRow) :
    (exportGeoJsonRows df).map Prod.fst = exportCsvRows df ∧
    (exportParquetRows df).map Prod.fst = exportCsvRows df ∧
    (exportGeoJsonRows df).map Prod.fst = (exportParquetRows df).map Prod.fst := by
  have hlen : df.length ≤ (create_grid_geometry df).length := by
    simp [create_grid_geometry]
  refine ⟨?_, ?_, rfl⟩ <;>
    simpa [exportGeoJsonRows, exportParquetRows, exportCsvRows] using
      List.map_fst_zip df (create_grid_geometry df) hlen

/-- C3 counterexample: the LULC metadata annotator does not preserve
pixel values on every raster: `astype("uint8")` turns the pixel value
300 into 44, so the claim fails on a raster holding 300. -/
theorem lulc_metadata_alters_pixels :
    (assign_lulc_metadata ⟨[300], [], [], "", []⟩).pixels ≠
      (Raster.mk [300] [] [] "" []).pixels := by
  decide

/-- C3 amended: the night-lights and hazard annotators never change
pixel values; the LULC annotator preserves pixel values on every raster
whose pixel values all fit in an unsigned byte (as the documented LULC
class codes do), its `astype("uint8")` cast being the identity there. -/
theorem metadata_preserves_pixels_amended :
    (∀ (r : Raster) (year : ℕ) (region : String),
      (assign_nightlights_metadata r year region).pixels = r.pixels) ∧
    (∀ (r : Raster) (filename : String),
      (assign_hazard_metadata r filename).pixels = r.pixels) ∧
    (∀ r : Raster, (∀ v ∈ r.pixels, v < 256) →
      (assign_lulc_metadata r).pixels = r.pixels) := by
  refine ⟨fun r year region => rfl, ?_, ?_⟩
  · intro r filename
    cases h : HAZARD_METADATA.find? (fun p => p.1 = removeTif filename) <;>
      simp [assign_hazard_metadata, h]
  · intro r hr
    have key : ∀ l : List ℕ, (∀ v ∈ l, v < 256) →
        l.map (fun v => v % 256) = l := by
      intro l hl
      induction l with
      | nil => rfl
      | cons a t ih =>
        simp only [List.mem_cons, forall_eq_or_imp] at hl
        simp only [List.map, List.cons.injEq]
        exact ⟨Nat.mod_eq_of_lt hl.1, ih hl.2⟩
    simpa [assign_lulc_metadata] using key r.pixels hr

/-- C3 witness: on a raster of in-range LULC codes the annotator keeps
the pixels. -/
theorem metadata_preserves_pixels_witness :
    (assign_lulc_metadata ⟨[1, 2, 11], [], [], "", []⟩).pixels = [1, 2, 11] :=
  metadata_preserves_pixels_amended.2.2 ⟨[1, 2, 11], [], [], "", []⟩ (by decide)

/-- C5: when the destination already exists (extracted TIF files for
the Drive downloader, the target file for the ImageServer downloader),
a re-run returns success without fetching — the result is the same for
every fetch outcome — and leaves the existing contents unchanged. -/
theorem download_skip_when_present (extractTifs : List ℕ → List String)
    (s : BnpbState) (o : FetchOutcome) (content : List ℕ)
    (o2 : FetchOutcome) (hs : s.tifFiles ≠ []) :
    download_bnpb_data extractTifs s o = (s, true) ∧
    download_layer (some content) o2 = (some content, true) := by
  constructor
  · simp [download_bnpb_data, hs]
  · rfl

/-- C5 witness at a concrete pre-existing state. -/
theorem download_skip_when_present_witness :
    download_bnpb_data (fun _ => []) ⟨["inarisk_hazard_floods.tif"], none⟩
      FetchOutcome.httpError = (⟨["inarisk_hazard_floods.tif"], none⟩, true) ∧
    download_layer (some [1, 2]) FetchOutcome.httpError = (some [1, 2], true) :=
  download_skip_when_present (fun _ => []) ⟨["inarisk_hazard_floods.tif"], none⟩
    FetchOutcome.httpError [1, 2] FetchOutcome.httpError (by decide)

/-- C6 counterexample: `download_layer` in `risk_bnpb_scrap.py` does
not remove a partially written target: after a stream failure that
wrote the bytes `[7]`, the call reports failure yet the partial file is
still on disk. -/
theorem download_layer_partial_remains :
    (download_layer none (FetchOutcome.streamError [7])).1 ≠ none ∧
    (download_layer none (FetchOutcome.streamError [7])).2 = false := by
  decide

/-- C6 amended: the Drive downloader (`download_risk_bnpb.py`) and the
Geofabrik downloader (`extract_osm_data.py`) do remove the partial
target on a mid-stream failure: after the failing run the ZIP file,
respectively the PBF file, is absent and the run reports failure. -/
theorem download_cleanup_amended (extractTifs : List ℕ → List String)
    (s : BnpbState) (written : List ℕ) (hs : s.tifFiles = []) :
    download_bnpb_data extractTifs s (.streamError written) =
      ({ s with zipFile := none }, false) ∧
    download_indonesia_pbf none (.streamError written) = (none, false) := by
  constructor
  · simp [download_bnpb_data, hs]
  · rfl

/-- C6 amended witness at a concrete empty state. -/
theorem download_cleanup_amended_witness :
    download_bnpb_data (fun _ => []) ⟨[], some [1]⟩ (.streamError [7]) =
      (⟨[], none⟩, false) ∧
    download_indonesia_pbf none (.streamError [7]) = (none, false) :=
  download_cleanup_amended (fun _ => []) ⟨[], some [1]⟩ [7] rfl

/-- C7: when the region-name filter matches no row, boundary extraction
yields no features (the function returns `None`, writes nothing) and
takes the warning path; the filtering step is a total function, so no
fault escapes it. -/
theorem empty_filter_warns (keywords : List String) (rows : List BRow)
    (h : ∀ r ∈ rows, matchValue keywords r.nameVal = false) :
    extractBoundariesFilter keywords rows = (none, true) := by
  have hnil : rows.filter (fun r => matchValue keywords r.nameVal) = [] := by
    rw [List.filter_eq_nil_iff]
    intro r hr
    simp [h r hr]
  simp [extractBoundariesFilter, hnil]

/-- C7 witness: the OKU keyword set matches no row of a table about
another region, so the extraction warns and returns no features. -/
theorem empty_filter_warns_witness :
    extractBoundariesFilter ["OGAN KOMERING ULU$"]
      [⟨some "KOTA BOGOR", ["f1"]⟩, ⟨none, ["f2"]⟩] = (none, true) :=
  empty_filter_warns ["OGAN KOMERING ULU$"]
    [⟨some "KOTA BOGOR", ["f1"]⟩, ⟨none, ["f2"]⟩] (by decide)

/-- C8 counterexample: the heuristic also accepts the substring `KOT`,
which the claim omits: on columns `["KOTA", "NAMA"]` the code selects
`KOTA` while the claimed rule (substrings `WADM`, `NAMA`, `KAB` only)
selects `NAMA`. -/
theorem name_heuristic_kot_differs :
    pickNameCol ["KOTA", "NAMA"] [] = some "KOTA" ∧
    pickNameColClaimed ["KOTA", "NAMA"] [] = some "NAMA" ∧
    pickNameCol ["KOTA", "NAMA"] [] ≠ pickNameColClaimed ["KOTA", "NAMA"] [] := by
  refine ⟨by decide, by decide, by decide⟩

/-- Taking the head of a filtered list with a fallback equals `find?`
with the same fallback. -/
theorem head_filter_eq_find (p : String → Bool) (l : List String)
    (d : Option String) :
    (match l.filter p with | [] => d | c :: _ => some c) =
      (match l.find? p with | some c => some c | none => d) := by
  induction l with
  | nil => rfl
  | cons a t ih =>
    by_cases h : p a
    · simp [List.filter_cons, List.find?_cons, h]
    · simpa [List.filter_cons, List.find?_cons, h] using ih

/-- C8 amended: the heuristic selects the column literally named
`WADMKK` when present; otherwise the first column whose upper-cased
name contains one of `WADM`, `NAMA`, `KAB`, `KOT` and does not contain
`KD`; otherwise the first text column. -/
theorem name_heuristic_amended (cols textCols : List String) :
    pickNameCol cols textCols = pickNameColAmended cols textCols := by
  unfold pickNameCol pickNameColAmended
  split
  · rfl
  · exact head_filter_eq_find nameColPred cols textCols.head?

/-- C9: regional vector extraction returns only input features (CRS
aligned to the region layer) lying within some region geometry, and its
output, like the normalized boundary output, is in WGS84 when the
region layer is in WGS84 — which `extract_boundaries` guarantees. -/
theorem regional_extraction_within_wgs84
    (within : List (ℚ × ℚ) → List (ℚ × ℚ) → Bool)
    (reproj : List (ℚ × ℚ) → List (ℚ × ℚ))
    (pois region : VecLayer) (hcrs : region.crs = "EPSG:4326") :
    (extract_pois within reproj pois region).crs = "EPSG:4326" ∧
    (∀ f ∈ (extract_pois within reproj pois region).feats,
      (∃ g ∈ region.feats, within f.2 g.2 = true) ∧
      (∃ f0 ∈ pois.feats,
        f = if pois.crs = region.crs then f0 else (f0.1, reproj f0.2))) ∧
    (∀ (reproj2 : List (ℚ × ℚ) → List (ℚ × ℚ)) (l : VecLayer),
      (ensureWgs84 reproj2 l).crs = "EPSG:4326") := by
  refine ⟨hcrs, ?_, ?_⟩
  · intro f hf
    simp only [extract_pois, List.mem_filter] at hf
    obtain ⟨hmem, hpred⟩ := hf
    constructor
    · simpa [List.any_eq_true] using hpred
    · by_cases hsame : pois.crs = region.crs
      · simp only [hsame, if_true] at hmem ⊢
        exact ⟨f, hmem, rfl⟩
      · simp only [hsame, if_false] at hmem ⊢
        obtain ⟨f0, hf0, rfl⟩ := List.mem_map.mp hmem
        exact ⟨f0, hf0, rfl⟩
  · intro reproj2 l
    unfold ensureWgs84
    split <;> simp_all

/-- C9 witness at a concrete WGS84 layer pair. -/
theorem regional_extraction_within_wgs84_witness :
    (extract_pois (fun _ _ => true) id ⟨"EPSG:4326", [("poi", [(0, 0)])]⟩
      ⟨"EPSG:4326", [("region", [(0, 0)])]⟩).crs = "EPSG:4326" :=
  (regional_extraction_within_wgs84 (fun _ _ => true) id
    ⟨"EPSG:4326", [("poi", [(0, 0)])]⟩
    ⟨"EPSG:4326", [("region", [(0, 0)])]⟩ rfl).1

end GeoSquare
